import Mathlib

/-!
Verification of the media delivery pipeline of `bot.py` (Soyz-bot1).

The definitions below are a shallow embedding of the Python source:
pure computations become Lean functions, the disk becomes an explicit
`Finset String` of present paths, network calls become oracle
parameters, and Python exceptions become `Except` / `Option` results.
Line numbers refer to `src/bot.py`.
-/

namespace Bot

/-- Structural model of the Python substring test `pat in s`:
`listIsPre pat l` holds when `pat` is an initial segment of `l`. -/
def listIsPre : List Char → List Char → Bool
  | [], _ => true
  | _ :: _, [] => false
  | a :: as, b :: bs => a == b && listIsPre as bs

/-- Whether the character list `pat` occurs as a contiguous segment of `l`. -/
def hasSeg (pat : List Char) : List Char → Bool
  | [] => pat.isEmpty
  | c :: rest => listIsPre pat (c :: rest) || hasSeg pat rest

/-- Python `pat in s` on strings (substring containment). -/
def strContains (s pat : String) : Bool := hasSeg pat.data s.data

/-! ## Readiness-polling retry loop (`MaxAPI.send_media`, lines 234-246)

The send behaviour is abstracted as an oracle `send : Nat → Option String`
mapping the 1-based attempt number to `none` (the send call returned
normally) or `some e` (the send call raised an exception whose string
form is `e`).  Line 242 classifies an exception as transient exactly when
its string form contains `"attachment.not.ready"`. -/

/-- The fixed delay schedule of line 234: `delays = [2, 5, 10, 20, 30]`. -/
def delays : List Nat := [2, 5, 10, 20, 30]

/-- Line 242: the error is transient iff `"attachment.not.ready" in str(e)`. -/
def isNotReadyErr (e : String) : Bool := strContains e "attachment.not.ready"

/-- How the `for attempt, delay in enumerate(delays, 1)` loop terminates. -/
inductive LoopOutcome
  | returned
  | fellThrough
  | raised (msg : String)
deriving DecidableEq, Repr

/-- Observable trace of the retry loop: how it ended, how many send
attempts were made, and the total seconds slept. -/
structure LoopTrace where
  outcome : LoopOutcome
  attempts : Nat
  slept : Nat
deriving DecidableEq, Repr

/-- The body of the loop of lines 235-246, over the remaining delay list,
carrying the number of attempts already made and the seconds already
slept.  On success the function returns at once (line 240); on a
"not ready" error it sleeps the current delay and continues (lines
243-244); on any other error it re-raises (line 246); when the delay
list is exhausted the loop falls through. -/
def retryLoop (send : Nat → Option String) : List Nat → Nat → Nat → LoopTrace
  | [], a, s => ⟨.fellThrough, a, s⟩
  | d :: rest, a, s =>
    match send (a + 1) with
    | none => ⟨.returned, a + 1, s⟩
    | some e =>
      if isNotReadyErr e then retryLoop send rest (a + 1) (s + d)
      else ⟨.raised e, a + 1, s⟩

/-- The retry phase of `MaxAPI.send_media` (lines 234-246). -/
def send_media_loop (send : Nat → Option String) : LoopTrace :=
  retryLoop send delays 0 0

/-- The Python-level result of `send_media` as seen by its caller: the
function body has no statement after the loop, so both the explicit
`return` of line 240 and falling through the exhausted loop produce the
same value `None`; only a re-raised exception is distinguishable. -/
def sendMediaReturn (send : Nat → Option String) : Except String Unit :=
  match (send_media_loop send).outcome with
  | .returned => .ok ()
  | .fellThrough => .ok ()
  | .raised e => .error e

/-- A send oracle that reports the "not ready" condition on every attempt. -/
def notReadyAlways : Nat → Option String :=
  fun _ => some "MAX API error: 400 attachment.not.ready"

/-- Key stepping lemma: if the first `K` attempts (starting after attempt
`a`) all raise "not ready" errors, the loop runs through the first `K`
delays, sleeping their sum. -/
theorem retryLoop_notReady_steps (send : Nat → Option String) :
    ∀ (K : Nat) (ds : List Nat) (a s : Nat), K ≤ ds.length →
      (∀ i, a + 1 ≤ i → i ≤ a + K → ∃ e, send i = some e ∧ isNotReadyErr e = true) →
      retryLoop send ds a s = retryLoop send (ds.drop K) (a + K) (s + (ds.take K).sum)
  | 0, ds, a, s, _, _ => by simp
  | K + 1, [], a, s, hK, _ => by simp at hK
  | K + 1, d :: rest, a, s, hK, h => by
    obtain ⟨e, he, hnr⟩ := h (a + 1) (le_refl _) (by omega)
    have ih := retryLoop_notReady_steps send K rest (a + 1) (s + d)
      (by simpa using hK)
      (fun i h1 h2 => h i (by omega) (by omega))
    simp only [retryLoop, he, hnr, if_true]
    rw [ih]
    have h1 : a + 1 + K = a + (K + 1) := by omega
    have h2 : s + d + (rest.take K).sum = s + ((d :: rest).take (K + 1)).sum := by
      simp [List.take_succ_cons]; omega
    rw [h1, h2]
    simp

/-- C1 (counterexample): with a send call that reports "not ready" on every
attempt, `send_media` does NOT return a distinguishable `FinalFailure`: its
Python-level return value is the same `None` (here `Except.ok ()`) that a
first-attempt success produces, so the caller cannot tell exhaustion from
success; moreover the schedule is the five delays `[2, 5, 10, 20, 30]`
spanning 67 seconds, not about four delays spanning roughly 37 seconds. -/
theorem c1_counterexample :
    sendMediaReturn notReadyAlways = Except.ok () ∧
    sendMediaReturn (fun _ => none) = Except.ok () ∧
    delays.sum = 67 ∧ delays.length = 5 ∧ delays ≠ [2, 5, 10, 20] := by
  refine ⟨rfl, rfl, rfl, rfl, by decide⟩

/-- C1 (amended): for every delivery where the send call reports the
"not ready" condition on every scheduled attempt, the retry loop of
`MaxAPI.send_media` makes exactly one attempt per scheduled delay —
never exceeding the schedule length of five (delays 2s, 5s, 10s, 20s,
30s, 67 seconds total) — and then falls through the loop, returning the
ordinary `None` value, which is indistinguishable from a successful
send to its caller (no `FinalFailure` is reported). -/
theorem c1_exhaustion_falls_through (send : Nat → Option String)
    (hnr : ∀ i, 1 ≤ i → i ≤ 5 → ∃ e, send i = some e ∧ isNotReadyErr e = true) :
    send_media_loop send = ⟨.fellThrough, 5, 67⟩ ∧
    sendMediaReturn send = Except.ok () := by
  have h := retryLoop_notReady_steps send 5 delays 0 0 (by decide)
    (fun i h1 h2 => hnr i h1 (by omega))
  have hloop : send_media_loop send = ⟨.fellThrough, 5, 67⟩ := by
    rw [send_media_loop, h]; rfl
  exact ⟨hloop, by rw [sendMediaReturn, hloop]⟩

/-- C1 witness: the amended statement evaluated at the concrete
always-"not ready" oracle. -/
theorem c1_exhaustion_falls_through_witness :
    send_media_loop notReadyAlways = ⟨.fellThrough, 5, 67⟩ ∧
    sendMediaReturn notReadyAlways = Except.ok () :=
  c1_exhaustion_falls_through notReadyAlways
    (fun i _ _ => ⟨"MAX API error: 400 attachment.not.ready", rfl, by decide⟩)

/-- C7: if the send call reports "not ready" exactly `K` times
(`K` below the schedule length 5) then succeeds, the loop returns success
after exactly `K + 1` attempts, with total sleep equal to the sum of the
first `K` scheduled delays and no waiting after the successful attempt;
and if attempt `K + 1` instead raises any error other than "not ready",
that error is re-raised immediately, with no further attempts and no
further sleeping. -/
theorem c7_poller_counts (send : Nat → Option String) (K : Nat)
    (hK : K < 5)
    (hnr : ∀ i, 1 ≤ i → i ≤ K → ∃ e, send i = some e ∧ isNotReadyErr e = true) :
    (send (K + 1) = none →
      send_media_loop send = ⟨.returned, K + 1, (delays.take K).sum⟩) ∧
    (∀ e, send (K + 1) = some e → isNotReadyErr e = false →
      send_media_loop send = ⟨.raised e, K + 1, (delays.take K).sum⟩) := by
  have h := retryLoop_notReady_steps send K delays 0 0 (by simp [delays]; omega)
    (fun i h1 h2 => hnr i h1 (by omega))
  have hdrop : ∃ d rest, delays.drop K = d :: rest := by
    interval_cases K <;> exact ⟨_, _, rfl⟩
  obtain ⟨d, rest, hdr⟩ := hdrop
  constructor
  · intro hsucc
    rw [send_media_loop, h, hdr, retryLoop]
    simp only [Nat.zero_add]
    rw [hsucc]
  · intro e hraise hother
    rw [send_media_loop, h, hdr, retryLoop]
    simp only [Nat.zero_add]
    rw [hraise]
    simp [hother]

/-- C7 witness: a concrete stub that is "not ready" once then succeeds —
success on attempt 2 with 2 seconds of total sleep. -/
theorem c7_poller_counts_witness :
    send_media_loop (fun i => if i = 1 then some "attachment.not.ready" else none) =
      ⟨.returned, 2, 2⟩ := by
  have h := (c7_poller_counts
      (fun i => if i = 1 then some "attachment.not.ready" else none) 1
      (by omega)
      (fun i h1 h2 => by
        have : i = 1 := by omega
        subst this
        exact ⟨"attachment.not.ready", rfl, by decide⟩)).1 rfl
  simpa using h

/-! ## `MaxAPI.send_message` and Python name resolution (lines 250-257)

Line 252 builds `payload = {"chat_id": chat_id, ...}`.  The name
`chat_id` is resolved by Python's LEGB rule: it is not assigned in the
function (locals are `self`, `user_id`, `text`, `attachments`,
`payload`), `send_message` has no enclosing function scope, and the
module's global namespace contains no binding named `chat_id` (the
`chat_id` of line 283 is local to `handle_url`); it is not a builtin.
Evaluating the dict literal therefore raises `NameError` before
`self._request` on line 257 can run. -/

/-- Names bound at module level in `bot.py` (imports, assignments,
`def`/`class` statements). -/
def moduleGlobals : List String :=
  ["asyncio", "logging", "os", "re", "aiohttp", "yt_dlp", "yadisk", "time",
   "Path", "urlparse", "MaxBot", "Dispatcher", "MessageCreated", "BotStarted",
   "TOKEN", "YADISK_TOKEN", "DOWNLOAD_DIR", "logger",
   "cleanup_old_files", "format_duration", "extract_info", "download_file",
   "MaxAPI", "upload_to_yadisk", "handle_url", "max_bot", "dp",
   "handle_message", "handle_bot_started", "main"]

/-- Names bound in the scope of `send_message` itself: its parameters
(line 250).  `payload` is being assigned by the very statement that
evaluates `chat_id`, so its value is not yet available, and no other
local exists. -/
def sendMessageParams : List String := ["self", "user_id", "text", "attachments"]

/-- The full set of names resolvable inside `send_message`. -/
def sendMessageScope : List String := sendMessageParams ++ moduleGlobals

/-- Result of one call to `send_message`: whether the HTTP request of
line 257 was issued, and the value returned / exception raised. -/
structure SendMessageCall where
  httpRequestIssued : Bool
  result : Except String Unit
deriving Repr

/-- Shallow embedding of `MaxAPI.send_message` (lines 250-257): the
payload dict literal evaluates the name `chat_id` first; if the name is
not in scope the statement raises `NameError` and `self._request` is
never reached. -/
def send_message (user_id : Nat) (text : String) (attachments : List String) :
    SendMessageCall :=
  if "chat_id" ∈ sendMessageScope then
    ⟨true, .ok ()⟩
  else
    ⟨false, .error "NameError: name chat_id is not defined"⟩

/-- The send oracle that `send_media`'s retry loop actually sees, given
that every attempt calls `send_message` (line 238) and `send_message`
always raises `NameError`. -/
def nameErrorSend : Nat → Option String :=
  fun _ => some "NameError: name chat_id is not defined"

/-- C2: for every invocation of `send_message`, the payload construction
raises `NameError` (the name `chat_id` is bound neither as a parameter
nor in any enclosing scope) before any HTTP request is issued, so no
message can ever be delivered through it; in particular the `send_media`
retry loop, whose every attempt raises this non-"not ready" error,
re-raises it on its very first attempt without sleeping. -/
theorem c2_send_message_always_raises (user_id : Nat) (text : String)
    (attachments : List String) :
    send_message user_id text attachments =
      ⟨false, .error "NameError: name chat_id is not defined"⟩ ∧
    ("chat_id" ∈ sendMessageScope ↔ False) ∧
    send_media_loop nameErrorSend =
      ⟨.raised "NameError: name chat_id is not defined", 1, 0⟩ := by
  refine ⟨rfl, by decide, by decide⟩

/-! ## Upload handshake (`get_upload_url`, `upload_file`, `send_media`,
lines 172-233)

Server responses are modelled as association lists of string fields
(`List (String × String)`); an absent field is an absent key.  Python
truthiness of a token makes both an absent key and an empty string
falsy. -/

/-- Shallow embedding of `MaxAPI.get_upload_url` (lines 172-198): raise
unless the response has a `url` field; for media classes `video` and
`audio`, additionally raise if the `token` field is absent or falsy;
otherwise return the response dict unchanged. -/
def get_upload_url (media_type : String) (data : List (String × String)) :
    Except String (List (String × String)) :=
  if (data.lookup "url").isNone then
    .error "no url field in /uploads response"
  else if (media_type == "video" || media_type == "audio") &&
      (data.lookup "token").getD "" == "" then
    .error "no token in /uploads response"
  else
    .ok data

/-- Helper: a successful `get_upload_url` returns its input dict unchanged. -/
theorem get_upload_url_ok_eq {mt : String} {d r : List (String × String)}
    (h : get_upload_url mt d = .ok r) : r = d := by
  unfold get_upload_url at h
  split at h
  · simp at h
  · split at h
    · simp at h
    · injection h with h'
      exact h'.symm

/-- Body of a 2xx response to the byte-upload POST. -/
inductive UploadBody
  | jsonBody (fields : List (String × String))
  | textBody (t : String)
deriving DecidableEq, Repr

/-- Value produced by `upload_file` when it does not raise. -/
inductive UploadResult
  | jsonDict (fields : List (String × String))
  | retvalOk
deriving DecidableEq, Repr

/-- Shallow embedding of `MaxAPI.upload_file` (lines 200-223): non-2xx
raises; a JSON body is returned as-is by the `return await resp.json()`
of line 212 — the token check of lines 220-221 sits after both branches
of the `try` have returned or raised and is unreachable; a non-JSON body
containing `<retval>1</retval>` yields `{"status": "ok"}`, and any other
non-JSON body hits the misspelled `raise Exeption(...)` of line 219,
which itself raises `NameError`. -/
def upload_file (status : Nat) (body : UploadBody) : Except String UploadResult :=
  if status ≠ 200 ∧ status ≠ 201 then
    .error ("Upload failed: " ++ toString status)
  else
    match body with
    | .jsonBody fields => .ok (.jsonDict fields)
    | .textBody t =>
      if strContains t "<retval>1</retval>" then .ok .retvalOk
      else .error "NameError: name Exeption is not defined"

/-- The attachment that `send_media` is about to send, together with the
media class it requested from `/uploads`. -/
structure SendMediaPrep where
  mediaClassRequested : String
  attachmentType : String
  attachmentToken : String
deriving DecidableEq, Repr

/-- Shallow embedding of the handshake phase of `MaxAPI.send_media`
(lines 225-233): request a slot with the hard-coded media class
`"video"` (line 227), read `url` and `token` from the slot response
(lines 228, 230), upload the bytes and DISCARD the upload response
(line 232), then build the attachment from the slot token (line 233). -/
def send_media_handshake (slotData : List (String × String))
    (uploadStatus : Nat) (uploadBody : UploadBody) : Except String SendMediaPrep :=
  match get_upload_url "video" slotData with
  | .error e => .error e
  | .ok data =>
    match data.lookup "url", data.lookup "token" with
    | some _, some token =>
      match upload_file uploadStatus uploadBody with
      | .error e => .error e
      | .ok _ => .ok ⟨"video", "video", token⟩
    | _, _ => .error "KeyError"

/-- C3 (counterexample): a 2xx byte-upload response whose JSON body lacks
a token field is NOT a propagated error — `upload_file` returns the
parsed dict as a success (the token check in the source is unreachable
dead code), refuting the image-class half of the claim. -/
theorem c3_counterexample :
    upload_file 200 (.jsonBody [("ok", "1")]) = .ok (.jsonDict [("ok", "1")]) ∧
    ([("ok", "1")] : List (String × String)).lookup "token" = none := by
  exact ⟨rfl, rfl⟩

/-- C3 (amended): the video half of the claim holds — whenever the
handshake succeeds, the attachment token is exactly the token of the
slot-request response, and the byte-upload response body is never
consulted for a token (the handshake result is independent of which
accepted body the upload returned).  But the image half fails: the code
never requests an image-class slot (`send_media` hard-codes `"video"`),
and a 2xx upload response lacking a token field is returned as a
success, not propagated as an error. -/
theorem c3_token_source (slotData : List (String × String)) (st : Nat)
    (b b' : UploadBody) :
    (∀ prep, send_media_handshake slotData st b = .ok prep →
      prep.mediaClassRequested = "video" ∧
      slotData.lookup "token" = some prep.attachmentToken) ∧
    (∀ prep, send_media_handshake slotData st b = .ok prep →
      (upload_file st b').isOk = true →
      send_media_handshake slotData st b' = .ok prep) ∧
    (∀ fields, upload_file 200 (.jsonBody fields) = .ok (.jsonDict fields)) := by
  refine ⟨?_, ?_, fun fields => rfl⟩
  · intro prep h
    unfold send_media_handshake at h
    split at h
    · simp at h
    · rename_i data hg
      have hdata := get_upload_url_ok_eq hg
      subst hdata
      split at h
      · rename_i u token hu ht
        split at h
        · simp at h
        · injection h with h'
          subst h'
          exact ⟨rfl, ht⟩
      · simp at h
  · intro prep h hok
    unfold send_media_handshake at h ⊢
    split at h
    · simp at h
    · rename_i data hg
      cases hu : List.lookup "url" data with
      | none => rw [hu] at h; simp at h
      | some u =>
        cases ht : List.lookup "token" data with
        | none => rw [hu, ht] at h; simp at h
        | some token =>
          cases hup : upload_file st b with
          | error e => rw [hup] at h; simp [hu, ht] at h
          | ok r =>
            rw [hup] at h
            cases hup' : upload_file st b' with
            | error e =>
              rw [hup'] at hok
              simp [Except.isOk, Except.toBool] at hok
            | ok r' =>
              simp [hu, ht] at h ⊢
              exact h

/-- C3 witness: the amended statement evaluated at a concrete slot
response carrying a token, a 200 upload status, and two different upload
bodies. -/
theorem c3_token_source_witness :
    send_media_handshake [("url", "https://u"), ("token", "tok1")] 200
        (.jsonBody []) = .ok ⟨"video", "video", "tok1"⟩ ∧
    ([("url", "https://u"), ("token", "tok1")] : List (String × String)).lookup
        "token" = some "tok1" := by
  have h := (c3_token_source [("url", "https://u"), ("token", "tok1")] 200
      (.jsonBody []) (.textBody "<retval>1</retval>")).1 ⟨"video", "video", "tok1"⟩ rfl
  exact ⟨rfl, h.2⟩

/-! ## Extension-to-kind mapping at fetch and upload time (C9)

Fetch time: line 125 chooses the download format preference from the
extension.  Upload time: line 227 requests the upload slot with the
hard-coded media class `"video"`, never looking at the extension. -/

/-- The two media kinds of the spec's data model. -/
inductive MediaKind
  | video
  | image
deriving DecidableEq, Repr

/-- The video container extensions of line 125. -/
def videoExts : List String := ["mp4", "mov", "avi", "mkv"]

/-- Line 125: the download format preference chosen from the extension. -/
def fetchFormatPref (ext : String) : String :=
  if ext ∈ videoExts then "best[ext=mp4]/best" else "best"

/-- Line 227: the media class passed to `get_upload_url` by `send_media` —
the constant `"video"`, independent of the item's extension. -/
def uploadMediaClass (ext : String) : String := "video"

/-- The spec's extension-to-kind invariant, stated from the spec's words
(video container extensions map to `video`, everything else to `image`),
to be compared against the two places in the source. -/
def specKindOfExt (ext : String) : MediaKind :=
  if ext ∈ videoExts then .video else .image

/-- The media class name of a kind, for comparing against the class
string the code sends. -/
def classOfKind : MediaKind → String
  | .video => "video"
  | .image => "image"

/-- C9 (counterexample): for the image extension `"jpg"` the mapping is
NOT applied consistently — fetch time treats it as non-video (plain
`best` format), yet upload time requests the `"video"` media class, not
the class of its derived kind `image`. -/
theorem c9_counterexample :
    specKindOfExt "jpg" = .image ∧
    fetchFormatPref "jpg" = "best" ∧
    uploadMediaClass "jpg" = "video" ∧
    uploadMediaClass "jpg" ≠ classOfKind (specKindOfExt "jpg") := by
  refine ⟨rfl, rfl, rfl, by decide⟩

/-- C9 (amended): the fetch-time format preference of line 125 does apply
the extension-to-kind mapping (video container extensions get the
combined-container preference, everything else plain `best`), but the
upload-time media class of line 227 is the constant `"video"` for every
extension, so the mapping is applied consistently at both sites exactly
for the video container extensions and for no others. -/
theorem c9_kind_mapping (ext : String) :
    fetchFormatPref ext =
      (if specKindOfExt ext = .video then "best[ext=mp4]/best" else "best") ∧
    uploadMediaClass ext = "video" ∧
    (uploadMediaClass ext = classOfKind (specKindOfExt ext) ↔ ext ∈ videoExts) := by
  by_cases h : ext ∈ videoExts
  · refine ⟨by simp [fetchFormatPref, specKindOfExt, h], rfl, ?_⟩
    simp [uploadMediaClass, specKindOfExt, classOfKind, h]
  · refine ⟨by simp [fetchFormatPref, specKindOfExt, h], rfl, ?_⟩
    simp [uploadMediaClass, specKindOfExt, classOfKind, h]

/-! ## Fetcher idempotence (`download_file`, lines 119-140)

The disk is modelled as the finite set of paths present; the external
downloader is an oracle `net : Bool` telling whether the `yt_dlp`
invocation produces the expected file (line 133 makes on-disk presence
the sole success signal — an exception or a missing output both yield
`None`). -/

/-- Line 120-121: the derived local path `downloads/{file_id}.{ext}`. -/
def derivedPath (file_id ext : String) : String :=
  "downloads/" ++ file_id ++ "." ++ ext

/-- Observable result of one `download_file` call: the returned path (or
`None`), whether the network downloader was invoked, and the disk
afterwards. -/
structure FetchOutcome where
  result : Option String
  networkInvoked : Bool
  disk : Finset String
deriving DecidableEq

/-- Shallow embedding of `download_file` (lines 119-140): if the derived
path already exists, return it at once without touching the network
(lines 122-123); otherwise run the downloader and report the path only
if it now exists on disk (lines 130-140). -/
def download_file (net : Bool) (disk : Finset String) (url file_id ext : String) :
    FetchOutcome :=
  let p := derivedPath file_id ext
  if p ∈ disk then ⟨some p, false, disk⟩
  else
    let disk' := if net then insert p disk else disk
    if p ∈ disk' then ⟨some p, true, disk'⟩ else ⟨none, true, disk'⟩

/-- C8: if a first `download_file` call for a URL, derived id and
extension returns a path, then a second call with the same arguments
against the resulting disk performs no network fetch and returns the
identical path with the disk unchanged — an idempotent cache hit. -/
theorem c8_fetch_idempotent (net1 net2 : Bool) (disk : Finset String)
    (url file_id ext : String) (p : String)
    (h : (download_file net1 disk url file_id ext).result = some p) :
    download_file net2 (download_file net1 disk url file_id ext).disk url file_id ext =
      ⟨some p, false, (download_file net1 disk url file_id ext).disk⟩ := by
  unfold download_file at h ⊢
  by_cases h0 : derivedPath file_id ext ∈ disk
  · simp only [h0, if_true] at h ⊢
    injection h with h'
    subst h'
    simp [h0]
  · simp only [h0, if_false] at h ⊢
    cases net1 with
    | false => simp [h0] at h
    | true =>
      have hmem : derivedPath file_id ext ∈ insert (derivedPath file_id ext) disk :=
        Finset.mem_insert_self _ _
      simp only [if_true, hmem] at h ⊢
      injection h with h'
      subst h'
      simp [hmem]

/-- C8 witness: a concrete first download onto an empty disk, then a
cache hit. -/
theorem c8_fetch_idempotent_witness :
    download_file false (download_file true ∅ "https://x" "clip" "mp4").disk
        "https://x" "clip" "mp4" =
      ⟨some "downloads/clip.mp4", false,
        (download_file true ∅ "https://x" "clip" "mp4").disk⟩ :=
  c8_fetch_idempotent true false ∅ "https://x" "clip" "mp4"
    "downloads/clip.mp4" (by decide)

/-! ## Fallback router (`upload_to_yadisk`, lines 260-279) and per-item
delivery (`send_single_file`, lines 294-332)

The secondary backend is abstracted as an environment of oracle results
for its four operations; the trace of issued operations is recorded so
that the shape of the protocol (folder, overwrite upload keyed by
basename, publish, link retrieval) is provable. -/

/-- Result of the `mkdir("/bot_uploads")` call of line 265. -/
inductive YaMkdirResult
  | created
  | conflictError
  | otherError (msg : String)
deriving DecidableEq, Repr

/-- Oracle results for the four secondary-backend operations. -/
structure YaEnv where
  mkdirResult : YaMkdirResult
  uploadOk : Bool
  publishOk : Bool
  metaUrl : Option String
deriving DecidableEq, Repr

/-- One operation issued against the secondary backend. -/
inductive YaOp
  | mkdirOp (path : String)
  | uploadOp (src dst : String) (overwrite : Bool)
  | publishOp (dst : String)
  | getMetaOp (dst : String)
deriving DecidableEq, Repr

/-- Python `os.path.basename` on forward-slash paths: the final path
segment. -/
def basename (p : String) : String :=
  ⟨p.data.foldl (fun acc c => if c = '/' then [] else acc ++ [c]) []⟩

/-- Shallow embedding of `upload_to_yadisk` (lines 260-279): ensure the
folder exists, treating `ConflictError` ("already exists") as success
(lines 264-267); upload the local file with `overwrite=True` to a path
keyed by its basename (lines 268-269); publish it (line 270); read the
public link from the metadata (lines 271-274).  Any other exception at
any step is caught by the outer handler and yields `None` (lines
275-277).  Returns the link (if any) and the trace of issued backend
operations. -/
def upload_to_yadisk (env : YaEnv) (file_path : String) :
    Option String × List YaOp :=
  let dst := "/bot_uploads/" ++ basename file_path
  match env.mkdirResult with
  | .otherError _ => (none, [.mkdirOp "/bot_uploads"])
  | _ =>
    if env.uploadOk then
      if env.publishOk then
        (env.metaUrl,
          [.mkdirOp "/bot_uploads", .uploadOp file_path dst true,
           .publishOp dst, .getMetaOp dst])
      else
        (none, [.mkdirOp "/bot_uploads", .uploadOp file_path dst true,
                .publishOp dst])
    else
      (none, [.mkdirOp "/bot_uploads", .uploadOp file_path dst true])

/-- User-visible messages emitted during and after delivery. -/
inductive Msg
  | degradedLink (url : String)
  | itemFailure
  | descriptionMsg (text : String)
  | courtesy
  | batchFailure
deriving DecidableEq, Repr

/-- Per-item result and observable behaviour of one `send_single_file`
call: the returned `(success, link)` pair, the user-visible messages it
emitted, and whether the fallback router was invoked. -/
structure ItemDelivery where
  success : Bool
  link : Option String
  msgs : List Msg
  fallbackInvoked : Bool
deriving DecidableEq, Repr

/-- Shallow embedding of `send_single_file` (lines 294-332): if the
primary `send_media` path succeeds, return `(True, None)` with no extra
messages (lines 310-313); otherwise the text-only diagnostic send of
line 318 always raises `NameError` (see `send_message`) and is swallowed
by lines 320-321, then the fallback router runs: a link yields the
degraded-delivery notification and `(True, link)` (lines 323-329), no
link yields the plain failure message and `(False, None)`
(lines 330-332). -/
def send_single_file (primaryOk : Bool) (env : YaEnv) (file_path : String) :
    ItemDelivery :=
  if primaryOk then ⟨true, none, [], false⟩
  else
    match (upload_to_yadisk env file_path).1 with
    | some u => ⟨true, some u, [.degradedLink u], true⟩
    | none => ⟨false, none, [.itemFailure], true⟩

/-- C10: the fallback router runs exactly when the primary delivery path
has failed; a pre-existing target folder (`ConflictError` on `mkdir`) is
treated as success and the router still proceeds to an overwrite upload
keyed by the file's basename, a publish call and a public-link
retrieval, returning the durable link; on fallback success the recipient
receives the distinct degraded-delivery notification carrying that link,
and when the fallback is exhausted the recipient is told plainly that
the item could not be delivered. -/
theorem c10_fallback_router (primaryOk : Bool) (env : YaEnv) (fp : String) :
    ((send_single_file primaryOk env fp).fallbackInvoked = true ↔ primaryOk = false) ∧
    (env.mkdirResult = .conflictError → env.uploadOk = true → env.publishOk = true →
      ∀ u, env.metaUrl = some u →
        upload_to_yadisk env fp =
          (some u,
            [.mkdirOp "/bot_uploads",
             .uploadOp fp ("/bot_uploads/" ++ basename fp) true,
             .publishOp ("/bot_uploads/" ++ basename fp),
             .getMetaOp ("/bot_uploads/" ++ basename fp)])) ∧
    (primaryOk = false → ∀ u, (upload_to_yadisk env fp).1 = some u →
      send_single_file primaryOk env fp = ⟨true, some u, [.degradedLink u], true⟩) ∧
    (primaryOk = false → (upload_to_yadisk env fp).1 = none →
      send_single_file primaryOk env fp = ⟨false, none, [.itemFailure], true⟩) := by
  refine ⟨?_, ?_, ?_, ?_⟩
  · cases primaryOk with
    | true => simp [send_single_file]
    | false =>
      simp only [send_single_file, if_false, Bool.false_eq_true]
      cases (upload_to_yadisk env fp).1 <;> simp
  · intro hm hu hp u hurl
    unfold upload_to_yadisk
    rw [hm]
    simp [hu, hp, hurl]
  · intro hpk u hurl
    simp [send_single_file, hpk, hurl]
  · intro hpk hurl
    simp [send_single_file, hpk, hurl]

/-- C10 witness: a failed primary path with a pre-existing folder and a
working backend — the recipient gets the degraded-link notification. -/
theorem c10_fallback_router_witness :
    send_single_file false ⟨.conflictError, true, true, some "https://disk/pub"⟩
        "downloads/clip.mp4" =
      ⟨true, some "https://disk/pub", [.degradedLink "https://disk/pub"], true⟩ := by
  have h := (c10_fallback_router false
      ⟨.conflictError, true, true, some "https://disk/pub"⟩ "downloads/clip.mp4").2.2.1
    rfl "https://disk/pub" (by decide)
  exact h

/-! ## Batch coordinator emissions (`handle_url`, lines 334-402)

The delivery phase of `handle_url` is modelled per batch: a `Single`
batch runs one item (lines 342-359); a `Collection` batch runs the
delivery loop (lines 379-385) and the end-of-batch block (lines
387-402).  Each item is described by its local path, whether the primary
`send_media` path succeeds, and the fallback-backend environment. -/

/-- One item of the delivery phase. -/
structure ItemRun where
  path : String
  primaryOk : Bool
  env : YaEnv
deriving DecidableEq, Repr

/-- Run `send_single_file` for one item. -/
def runItem (it : ItemRun) : ItemDelivery :=
  send_single_file it.primaryOk it.env it.path

/-- Python `s[:n]` — truncation to at most `n` characters. -/
def truncateTo (n : Nat) (s : String) : String := ⟨s.data.take n⟩

/-- End-of-batch messages: when anything succeeded, the description
message (only for a truthy, i.e. non-empty, description, truncated to
4000 characters — lines 346-348 / 388-390) followed by the courtesy
note (lines 352-356 / 394-398); when nothing succeeded, the single
branch emits nothing (lines 358-359) while the collection branch emits
the terminal failure notice (line 402). -/
def batchTailMsgs (anySuccess : Bool) (desc : String) (isCollection : Bool) :
    List Msg :=
  if anySuccess then
    (if desc = "" then [] else [.descriptionMsg (truncateTo 4000 desc)]) ++
      [.courtesy]
  else
    if isCollection then [.batchFailure] else []

/-- A batch as the delivery phase sees it. -/
inductive Batch
  | single (it : ItemRun) (desc : String)
  | collection (items : List ItemRun) (desc : String)

/-- The aggregated `anySucceeded` flag: the single item's success flag
(line 345) or the accumulated `any_success` of lines 379-384. -/
def batchAnySucceeded : Batch → Bool
  | .single it _ => (runItem it).success
  | .collection items _ => items.any fun it => (runItem it).success

/-- The description carried by the batch's content. -/
def batchDesc : Batch → String
  | .single _ d => d
  | .collection _ d => d

/-- Every user-visible message emitted during the delivery phase, in
order: per-item messages, then the end-of-batch block. -/
def batchEmissions : Batch → List Msg
  | .single it desc =>
    (runItem it).msgs ++ batchTailMsgs (runItem it).success desc false
  | .collection items desc =>
    (items.map fun it => (runItem it).msgs).join ++
      batchTailMsgs (items.any fun it => (runItem it).success) desc true

/-- The batch-terminal failure notice: for a `Single` batch it is the
plain failure message of its sole item (line 331); for a `Collection`
it is the whole-batch notice of line 402. -/
def isTerminalNotice : Batch → Msg → Bool
  | .single _ _, .itemFailure => true
  | .collection _ _, .batchFailure => true
  | _, _ => false

/-- Helper: the three possible shapes of one item's emitted messages. -/
theorem runItem_msgs_cases (it : ItemRun) :
    ((runItem it).success = true ∧
      ((runItem it).msgs = [] ∨ ∃ u, (runItem it).msgs = [.degradedLink u])) ∨
    ((runItem it).success = false ∧ (runItem it).msgs = [.itemFailure]) := by
  unfold runItem send_single_file
  cases hpk : it.primaryOk with
  | true => left; simp
  | false =>
    cases hy : (upload_to_yadisk it.env it.path).1 with
    | none => right; simp
    | some u => left; simp

/-- Helper: an item only ever emits degraded-link or item-failure
messages — never a description, courtesy or batch-failure message. -/
theorem runItem_msgs_mem (it : ItemRun) (m : Msg) (h : m ∈ (runItem it).msgs) :
    m = .itemFailure ∨ ∃ u, m = .degradedLink u := by
  rcases runItem_msgs_cases it with ⟨_, h0 | ⟨u, h0⟩⟩ | ⟨_, h0⟩ <;> rw [h0] at h
  · simp at h
  · simp at h
    exact Or.inr ⟨u, h⟩
  · simp at h
    exact Or.inl h

/-- Helper: when no item of the list succeeded, every per-item message
is the item-failure notice. -/
theorem allFailed_msgs (items : List ItemRun)
    (hall : ∀ it ∈ items, (runItem it).success = false) :
    ∀ m ∈ (items.map fun it => (runItem it).msgs).join, m = Msg.itemFailure := by
  intro m hm
  rw [List.mem_join] at hm
  obtain ⟨l, hl, hml⟩ := hm
  rw [List.mem_map] at hl
  obtain ⟨it, hit, rfl⟩ := hl
  rcases runItem_msgs_cases it with ⟨ht, _⟩ | ⟨_, h0⟩
  · rw [hall it hit] at ht; cases ht
  · rw [h0] at hml
    simpa using hml

/-- C4: for every batch, if zero items are delivered successfully
(primary and fallback both failing for each) then no description message
and no courtesy message is emitted and exactly one batch-terminal
failure notice is emitted; if at least one item succeeds (via primary or
fallback) the courtesy message is emitted, and the description message
(truncated to 4000 characters) is emitted exactly when the content's
description is non-empty. -/
theorem c4_batch_gating (b : Batch) :
    (batchAnySucceeded b = false →
      (∀ s, Msg.descriptionMsg s ∉ batchEmissions b) ∧
      Msg.courtesy ∉ batchEmissions b ∧
      ((batchEmissions b).filter (isTerminalNotice b)).length = 1) ∧
    (batchAnySucceeded b = true →
      Msg.courtesy ∈ batchEmissions b ∧
      (batchDesc b ≠ "" →
        Msg.descriptionMsg (truncateTo 4000 (batchDesc b)) ∈ batchEmissions b) ∧
      (batchDesc b = "" → ∀ s, Msg.descriptionMsg s ∉ batchEmissions b)) := by
  constructor
  · intro hfail
    cases b with
    | single it desc =>
      have hs : (runItem it).success = false := hfail
      have hmsgs : (runItem it).msgs = [.itemFailure] := by
        rcases runItem_msgs_cases it with ⟨ht, _⟩ | ⟨_, h0⟩
        · rw [hs] at ht; cases ht
        · exact h0
      refine ⟨?_, ?_, ?_⟩ <;>
        simp [batchEmissions, hmsgs, batchTailMsgs, hs, isTerminalNotice,
          List.filter]
    | collection items desc =>
      have hany : (items.any fun it => (runItem it).success) = false := hfail
      have hall : ∀ it ∈ items, (runItem it).success = false := by
        intro it hit
        have := List.any_eq_false.mp hany it hit
        simpa using this
      have hjoin := allFailed_msgs items hall
      have htail : batchTailMsgs (items.any fun it => (runItem it).success)
          desc true = [.batchFailure] := by
        rw [hany]; rfl
      refine ⟨?_, ?_, ?_⟩
      · intro s hmem
        rw [batchEmissions, htail, List.mem_append] at hmem
        rcases hmem with hmem | hmem
        · cases hjoin _ hmem
        · simp at hmem
      · intro hmem
        rw [batchEmissions, htail, List.mem_append] at hmem
        rcases hmem with hmem | hmem
        · cases hjoin _ hmem
        · simp at hmem
      · rw [batchEmissions, htail, List.filter_append]
        have hfj : ((items.map fun it => (runItem it).msgs).join).filter
            (isTerminalNotice (.collection items desc)) = [] := by
          rw [List.filter_eq_nil]
          intro m hm
          rw [hjoin m hm]
          simp [isTerminalNotice]
        rw [hfj]
        rfl
  · intro hsucc
    have hcourtesy :
        Msg.courtesy ∈ batchTailMsgs (batchAnySucceeded b) (batchDesc b)
          (match b with | .single _ _ => false | .collection _ _ => true) := by
      rw [hsucc, batchTailMsgs]
      simp
    refine ⟨?_, ?_, ?_⟩
    · cases b with
      | single it desc =>
        have : batchAnySucceeded (Batch.single it desc) = (runItem it).success := rfl
        rw [batchEmissions, List.mem_append]
        right
        rw [← this, hsucc, batchTailMsgs]
        simp
      | collection items desc =>
        rw [batchEmissions, List.mem_append]
        right
        have : (items.any fun it => (runItem it).success) = true := hsucc
        rw [this, batchTailMsgs]
        simp
    · intro hdesc
      cases b with
      | single it desc =>
        rw [batchEmissions, List.mem_append]
        right
        have hs : (runItem it).success = true := hsucc
        have hd : desc ≠ "" := hdesc
        rw [hs, batchTailMsgs]
        simp only [if_true]
        rw [if_neg hd]
        simp only [List.mem_append, List.mem_singleton]
        left
        rfl
      | collection items desc =>
        rw [batchEmissions, List.mem_append]
        right
        have hs : (items.any fun it => (runItem it).success) = true := hsucc
        have hd : desc ≠ "" := hdesc
        rw [hs, batchTailMsgs]
        simp only [if_true]
        rw [if_neg hd]
        simp only [List.mem_append, List.mem_singleton]
        left
        rfl
    · intro hdesc s
      cases b with
      | single it desc =>
        rw [batchEmissions, List.mem_append]
        rintro (hmem | hmem)
        · rcases runItem_msgs_mem it _ hmem with h | ⟨u, h⟩ <;> cases h
        · have hd : desc = "" := hdesc
          have hs : (runItem it).success = true := hsucc
          rw [hs, batchTailMsgs, hd] at hmem
          simp at hmem
      | collection items desc =>
        rw [batchEmissions, List.mem_append]
        rintro (hmem | hmem)
        · rw [List.mem_join] at hmem
          obtain ⟨l, hl, hml⟩ := hmem
          rw [List.mem_map] at hl
          obtain ⟨it, _, rfl⟩ := hl
          rcases runItem_msgs_mem it _ hml with h | ⟨u, h⟩ <;> cases h
        · have hd : desc = "" := hdesc
          have hs : (items.any fun it => (runItem it).success) = true := hsucc
          rw [hs, batchTailMsgs, hd] at hmem
          simp at hmem

/-- An environment in which the fallback backend is entirely down. -/
def failEnv : YaEnv := ⟨.otherError "down", false, false, none⟩

/-- A wholly failed single-item batch. -/
def bFail : Batch := .single ⟨"downloads/a.mp4", false, failEnv⟩ "some text"

/-- A successful single-item batch with empty description. -/
def bOk : Batch := .single ⟨"downloads/a.mp4", true, failEnv⟩ ""

/-- C4 witness: the gating facts evaluated on two concrete batches. -/
theorem c4_batch_gating_witness :
    ((batchEmissions bFail).filter (isTerminalNotice bFail)).length = 1 ∧
    Msg.courtesy ∈ batchEmissions bOk :=
  ⟨((c4_batch_gating bFail).1 (by decide)).2.2,
   ((c4_batch_gating bOk).2 (by decide)).1⟩

/-! ## Collection delivery order (`handle_url`, lines 361-385)

Line 370 gathers the per-entry download results in descriptor order
(`None` for a failed fetch), line 371 compacts them into
`successful_paths`, and the loop of lines 380-382 pairs the `idx`-th
successful path with `info['entries'][idx]` and captions it
`{idx+1}/{len(successful_paths)}`. -/

/-- Metadata of one collection entry as used in captions. -/
structure Entry where
  title : String
  uploader : String
  duration : Nat
  webpage_url : String
deriving DecidableEq, Repr, Inhabited

/-- One delivery as invoked by the loop: the file sent, the entry whose
metadata captioned it, and the 1-based index and total shown. -/
structure Delivery where
  path : String
  entry : Entry
  index : Nat
  total : Nat
deriving DecidableEq, Repr

/-- Line 371: `successful_paths = [p for p in file_paths if p]`. -/
def successfulPaths (fetched : List (Option String)) : List String :=
  fetched.filterMap id

/-- Shallow embedding of the delivery loop of lines 380-382: enumerate
the compacted successful paths, pairing position `idx` with
`entries[idx]` and captioning `idx+1` out of `len(successful_paths)`. -/
def playlistDeliveries (entries : List Entry) (fetched : List (Option String)) :
    List Delivery :=
  let sp := successfulPaths fetched
  (sp.zip entries).enum.map fun pr => ⟨pr.2.1, pr.2.2, pr.1 + 1, sp.length⟩

/-- First entry of the two-member counterexample collection. -/
def entryA : Entry := ⟨"first", "alice", 10, "https://a"⟩

/-- Second entry of the two-member counterexample collection. -/
def entryB : Entry := ⟨"second", "bob", 20, "https://b"⟩

/-- C5 (counterexample): in a collection of `N = 2` items whose first
fetch fails, the one remaining member is delivered captioned with the
FIRST member's metadata, index 1 and total 1 — not with its own
metadata (`entryB`), its original index 2, or the full total 2: the
claim fails on the code. -/
theorem c5_counterexample :
    playlistDeliveries [entryA, entryB] [none, some "downloads/b_1.mp4"] =
      [⟨"downloads/b_1.mp4", entryA, 1, 1⟩] ∧
    entryA ≠ entryB := by
  exact ⟨rfl, by decide⟩

/-- Helper: when every fetch produced a file, compaction loses nothing. -/
theorem successfulPaths_length_of_all_some (fetched : List (Option String))
    (h : ∀ o ∈ fetched, o.isSome) :
    (successfulPaths fetched).length = fetched.length := by
  induction fetched with
  | nil => rfl
  | cons o rest ih =>
    cases o with
    | none =>
      have := h none (by simp)
      simp at this
    | some a =>
      simp only [successfulPaths, List.filterMap_cons, id] at ih ⊢
      simp only [List.length_cons]
      rw [ih (fun o ho => h o (by simp [ho]))]

/-- C5 (amended): delivery is sequential over the successfully fetched
files in compacted order and a fetch failure does not abort the batch
(every successfully fetched file is still delivered), but the caption
index ranges over `1..M` where `M` is the number of successful fetches,
the total shown is `M` (not the descriptor length `N`), and the `i`-th
successful file is paired positionally with the `i`-th descriptor entry
— so after any fetch failure the remaining members are delivered with
compacted indices and other members' metadata; only when every fetch
succeeds does this coincide with the claimed `1..N` numbering against
`N` with each member's own metadata. -/
theorem c5_collection_order (entries : List Entry) (fetched : List (Option String))
    (hlen : fetched.length = entries.length) :
    (playlistDeliveries entries fetched).length = (successfulPaths fetched).length ∧
    (∀ i (h : i < (playlistDeliveries entries fetched).length),
      (playlistDeliveries entries fetched).get ⟨i, h⟩ =
        ⟨(successfulPaths fetched).getD i "", entries.getD i default, i + 1,
          (successfulPaths fetched).length⟩) ∧
    ((∀ o ∈ fetched, o.isSome) →
      (successfulPaths fetched).length = entries.length) := by
  have hsp : (successfulPaths fetched).length ≤ entries.length := by
    have h1 := List.length_filterMap_le (id : Option String → Option String) fetched
    simp only [successfulPaths]
    omega
  have hlen' : (playlistDeliveries entries fetched).length =
      (successfulPaths fetched).length := by
    simp [playlistDeliveries, Nat.min_eq_left hsp]
  refine ⟨hlen', ?_, ?_⟩
  · intro i h
    have hi : i < (successfulPaths fetched).length := by rw [← hlen']; exact h
    have hiz : i < ((successfulPaths fetched).zip entries).length := by
      simp [Nat.min_eq_left hsp]; exact hi
    have hie : i < entries.length := lt_of_lt_of_le hi hsp
    simp only [playlistDeliveries, List.get_eq_getElem, List.getElem_map,
      List.getElem_enum, List.getElem_zip]
    congr 1
    · exact (List.getD_eq_getElem _ _ hi).symm
    · exact (List.getD_eq_getElem _ _ hie).symm
  · intro hall
    rw [successfulPaths_length_of_all_some fetched hall, hlen]

/-- C5 witness: the amended statement evaluated on a two-member
collection with both fetches successful. -/
theorem c5_collection_order_witness :
    (playlistDeliveries [entryA, entryB]
        [some "downloads/a_0.mp4", some "downloads/b_1.mp4"]).length =
      (successfulPaths [some "downloads/a_0.mp4", some "downloads/b_1.mp4"]).length :=
  (c5_collection_order [entryA, entryB]
    [some "downloads/a_0.mp4", some "downloads/b_1.mp4"] rfl).1

/-! ## Per-item cleanup (`handle_url`, lines 342-343 and 379-385)

`Path(file_path).unlink(missing_ok=True)` runs unconditionally after
each item's delivery attempt concludes, whatever its outcome; with
`missing_ok=True` a missing file is not an error, and the call raises
nothing in this model. -/

/-- Semantics of `Path(p).unlink(missing_ok=True)`: remove the path if
present; never an error, present or not. -/
def unlink_missing_ok (disk : Finset String) (p : String) :
    Finset String × Option String :=
  (disk.erase p, none)

/-- The delivery loop of lines 380-385 as it acts on the filesystem:
after each item's `send_single_file` call concludes — whatever
`(success, link)` it produced — the item's local file is unlinked
exactly once.  Returns the final disk, the list of unlink calls made
(in order) and each call's error result. -/
def deliverAndCleanup (disk : Finset String) :
    List ItemRun → Finset String × List String × List (Option String)
  | [] => (disk, [], [])
  | it :: rest =>
    let step := unlink_missing_ok disk it.path
    let restRun := deliverAndCleanup step.1 rest
    (restRun.1, it.path :: restRun.2.1, step.2 :: restRun.2.2)

/-- Helper: the cleanup loop only ever removes files. -/
theorem deliverAndCleanup_subset (items : List ItemRun) :
    ∀ disk : Finset String, (deliverAndCleanup disk items).1 ⊆ disk := by
  induction items with
  | nil => intro disk; exact Finset.Subset.refl disk
  | cons it rest ih =>
    intro disk
    exact Finset.Subset.trans (ih (disk.erase it.path)) (Finset.erase_subset _ _)

/-- C6: for every sequence of items and every outcome of their delivery
attempts (success, fallback delivery, or total failure), the loop issues
exactly one deletion per item's local file; after the loop each such
file is absent from disk; no deletion ever reports an error, and in
particular deleting an already-missing file is not an error. -/
theorem c6_cleanup (disk : Finset String) (items : List ItemRun) :
    (deliverAndCleanup disk items).2.1 = items.map ItemRun.path ∧
    (∀ p, p ∈ items.map ItemRun.path → p ∉ (deliverAndCleanup disk items).1) ∧
    (∀ e ∈ (deliverAndCleanup disk items).2.2, e = none) ∧
    (∀ (d : Finset String) (q : String), (unlink_missing_ok d q).2 = none) := by
  refine ⟨?_, ?_, ?_, fun d q => rfl⟩
  · induction items generalizing disk with
    | nil => rfl
    | cons it rest ih => simp [deliverAndCleanup, unlink_missing_ok, ih]
  · induction items generalizing disk with
    | nil => intro p hp; simp at hp
    | cons it rest ih =>
      intro p hp
      simp only [List.map_cons, List.mem_cons] at hp
      rcases hp with rfl | hp
      · intro hmem
        have hsub := deliverAndCleanup_subset rest (disk.erase it.path)
        have hin : it.path ∈ disk.erase it.path := hsub hmem
        exact (Finset.not_mem_erase it.path disk) hin
      · exact ih (disk.erase it.path) p (by simpa using hp)
  · induction items generalizing disk with
    | nil => intro e he; simp [deliverAndCleanup] at he
    | cons it rest ih =>
      intro e he
      simp only [deliverAndCleanup, unlink_missing_ok, List.mem_cons] at he
      rcases he with rfl | he
      · rfl
      · exact ih (disk.erase it.path) e he

/-- C6 witness: one delivered (and failed) item whose file was present —
the unlink call list is exactly its path, the file is gone afterwards,
and the deletion reported no error. -/
theorem c6_cleanup_witness :
    "downloads/a_0.mp4" ∉
      (deliverAndCleanup {"downloads/a_0.mp4"}
        [⟨"downloads/a_0.mp4", false, failEnv⟩]).1 :=
  (c6_cleanup {"downloads/a_0.mp4"} [⟨"downloads/a_0.mp4", false, failEnv⟩]).2.1
    "downloads/a_0.mp4" (by simp)

end Bot
